import Mathlib

/-!
Verification of the hypersdk Python client (ssahani/hypersdk).

Shallow embedding of `src/sdk/python/hypersdk/{models,client,exceptions}.py`
and of the example monitoring / cost-comparison scripts, together with
theorems settling the frozen specification claims.

Modelling conventions:
* Python dicts produced by `to_dict` have a key set fixed by the source, so a
  wire dict is a Lean structure whose `Option` fields are `none` exactly when
  the key is omitted (`to_dict` never writes a `None` value into a dict).
* Python floats are modelled as rationals; `int(x)` is truncation toward zero.
* `datetime` values are kept as their textual (ISO) form; `fromisoformat`
  after the `Z → +00:00` substitution is modelled by the substituted string.
* Raised exceptions become `Except PyErr` results; `PyErr` has one
  constructor per exception class the embedded code can raise.
-/

/-- Exceptions raisable by the embedded code: the classes defined in
`hypersdk/exceptions.py` (`APIError`, `JobNotFoundError`,
`AuthenticationError`, `ValidationError`) plus the Python builtins raised by
the model code (`ValueError` from enum coercion, `KeyError` from dict
indexing). `exceptions.py` defines no decoding-specific error class. -/
inductive PyErr where
  | valueError (msg : String)
  | keyError (key : String)
  | apiError (msg : String) (status_code : Option Nat) (response : Option (List (String × String)))
  | jobNotFoundError (msg : String)
  | authenticationError (msg : String)
  | validationError (msg : String)
  deriving DecidableEq, Repr

/-- Whether the exception is an instance of `HyperSDKError`
(the base class in `exceptions.py`).  Python builtins are not. -/
def PyErr.isHyperSDKError : PyErr → Bool
  | .valueError _ => false
  | .keyError _ => false
  | .apiError _ _ _ => true
  | .jobNotFoundError _ => true
  | .authenticationError _ => true
  | .validationError _ => true

/-- `JobStatus` enum from `models.py`. -/
inductive JobStatus where
  | pending | running | completed | failed | cancelled
  deriving DecidableEq, Repr

def JobStatus.value : JobStatus → String
  | .pending => "pending"
  | .running => "running"
  | .completed => "completed"
  | .failed => "failed"
  | .cancelled => "cancelled"

/-- `JobStatus(s)`: Python enum coercion; raises `ValueError` on an
unrecognized value. -/
def JobStatus.fromValue (s : String) : Except PyErr JobStatus :=
  if s = "pending" then .ok .pending
  else if s = "running" then .ok .running
  else if s = "completed" then .ok .completed
  else if s = "failed" then .ok .failed
  else if s = "cancelled" then .ok .cancelled
  else .error (.valueError (s ++ " is not a valid JobStatus"))

/-- The fixed enumeration of status strings accepted at decode time. -/
def JobStatus.validValues : List String :=
  ["pending", "running", "completed", "failed", "cancelled"]

/-- `ExportFormat` enum from `models.py`. -/
inductive ExportFormat where
  | qcow2 | raw | vmdk | ova | ovf
  deriving DecidableEq, Repr

def ExportFormat.value : ExportFormat → String
  | .qcow2 => "qcow2"
  | .raw => "raw"
  | .vmdk => "vmdk"
  | .ova => "ova"
  | .ovf => "ovf"

/-- `ExportFormat(s)`: Python enum coercion; raises `ValueError` on an
unrecognized value. -/
def ExportFormat.fromValue (s : String) : Except PyErr ExportFormat :=
  if s = "qcow2" then .ok .qcow2
  else if s = "raw" then .ok .raw
  else if s = "vmdk" then .ok .vmdk
  else if s = "ova" then .ok .ova
  else if s = "ovf" then .ok .ovf
  else .error (.valueError (s ++ " is not a valid ExportFormat"))

/-- The fixed enumeration of format strings accepted at decode time. -/
def ExportFormat.validValues : List String :=
  ["qcow2", "raw", "vmdk", "ova", "ovf"]

/-- `ExportMethod` enum from `models.py`; `AUTO` has the empty string value. -/
inductive ExportMethod where
  | ctl | govc | ovftool | web | auto
  deriving DecidableEq, Repr

def ExportMethod.value : ExportMethod → String
  | .ctl => "ctl"
  | .govc => "govc"
  | .ovftool => "ovftool"
  | .web => "web"
  | .auto => ""

def ExportMethod.fromValue (s : String) : Except PyErr ExportMethod :=
  if s = "ctl" then .ok .ctl
  else if s = "govc" then .ok .govc
  else if s = "ovftool" then .ok .ovftool
  else if s = "web" then .ok .web
  else if s = "" then .ok .auto
  else .error (.valueError (s ++ " is not a valid ExportMethod"))

/-- `VCenterConfig` dataclass; `to_dict = asdict` keeps every field, so the
structure serves as its own wire form. -/
structure VCenterConfig where
  server : String
  username : String
  password : String
  insecure : Bool := false
  deriving DecidableEq, Repr

def VCenterConfig.to_dict (c : VCenterConfig) : VCenterConfig := c

/-- `ExportOptions` dataclass; its `to_dict` drops only `None`-valued keys,
which coincides with the omitted-key reading of `none`, so the structure
serves as its own wire form. -/
structure ExportOptions where
  parallel_downloads : Int := 4
  remove_cdrom : Bool := false
  show_individual_progress : Bool := false
  enable_pipeline : Bool := false
  hyper2kvm_path : Option String := none
  pipeline_inspect : Bool := false
  pipeline_fix : Bool := false
  pipeline_convert : Bool := false
  pipeline_validate : Bool := false
  pipeline_compress : Bool := false
  compress_level : Int := 6
  libvirt_integration : Bool := false
  libvirt_uri : Option String := none
  libvirt_autostart : Bool := false
  libvirt_bridge : Option String := none
  libvirt_pool : Option String := none
  deriving DecidableEq, Repr

def ExportOptions.to_dict (o : ExportOptions) : ExportOptions := o

/-- `JobDefinition` dataclass from `models.py` (note: it has no metadata
field). `datetime` fields are kept textual. -/
structure JobDefinition where
  vm_path : String
  name : Option String := none
  id : Option String := none
  output_path : Option String := none
  output_dir : Option String := none
  vcenter_url : Option String := none
  vcenter : Option VCenterConfig := none
  username : Option String := none
  datacenter : Option String := none
  format : ExportFormat := .ovf
  export_method : ExportMethod := .auto
  method : Option String := none
  compress : Bool := false
  thin : Bool := false
  insecure : Bool := false
  options : Option ExportOptions := none
  created_at : Option String := none
  deriving DecidableEq, Repr

/-- Scalar values stored in a metadata map (`str → scalar`). -/
inductive MetaVal where
  | boolV (b : Bool)
  | strV (s : String)
  | numV (q : Rat)
  | intV (n : Int)
  deriving DecidableEq, Repr

/-- Wire form of a job-definition dict as produced by
`JobDefinition.to_dict` and consumed by `Job.from_dict`; an `Option` field
is `none` exactly when the key is omitted.  The `metadata` slot exists so
that `submit_carbon_aware_job` can install its annotations; `to_dict`
itself never emits the key. -/
structure JobDict where
  vm_path : String
  name : Option String := none
  id : Option String := none
  output_path : Option String := none
  output_dir : Option String := none
  vcenter_url : Option String := none
  vcenter : Option VCenterConfig := none
  username : Option String := none
  datacenter : Option String := none
  format : Option String := none
  export_method : Option String := none
  method : Option String := none
  compress : Bool := false
  thin : Bool := false
  insecure : Bool := false
  options : Option ExportOptions := none
  created_at : Option String := none
  metadata : Option (List (String × MetaVal)) := none
  deriving DecidableEq, Repr

/-- Python truthiness test used by `to_dict` on optional strings:
both `None` and the empty string are falsy and skip the key. -/
def pyStrOpt : Option String → Option String
  | none => none
  | some s => if s = "" then none else some s

/-- `JobDefinition.to_dict` from `models.py` lines 93-126. -/
def JobDefinition.to_dict (d : JobDefinition) : JobDict :=
  { vm_path := d.vm_path
  , name := pyStrOpt d.name
  , id := pyStrOpt d.id
  , output_path := pyStrOpt d.output_path
  , output_dir := pyStrOpt d.output_dir
  , vcenter_url := pyStrOpt d.vcenter_url
  , vcenter := d.vcenter.map VCenterConfig.to_dict
  , username := pyStrOpt d.username
  , datacenter := pyStrOpt d.datacenter
  , format := if d.format.value = "" then none else some d.format.value
  , export_method := if d.export_method.value = "" then none else some d.export_method.value
  , method := pyStrOpt d.method
  , compress := d.compress
  , thin := d.thin
  , insecure := d.insecure
  , options := d.options.map ExportOptions.to_dict
  , created_at := d.created_at
  , metadata := none }

/-- `JobProgress` dataclass; `JobProgress.from_dict` filters the payload to
the known fields and applies the dataclass defaults, so the structure serves
as its own wire form. -/
structure JobProgress where
  phase : String
  current_file : Option String := none
  current_step : Option String := none
  files_downloaded : Int := 0
  total_files : Int := 0
  bytes_downloaded : Int := 0
  bytes_transferred : Int := 0
  total_bytes : Int := 0
  percent_complete : Rat := 0
  estimated_remaining : Option String := none
  export_method : Option String := none
  deriving DecidableEq, Repr

def JobProgress.from_dict (w : JobProgress) : JobProgress := w

/-- `JobResult` dataclass from `models.py`. -/
structure JobResult where
  vm_name : String
  output_dir : String
  ovf_path : String
  files : List String
  total_size : Int
  duration : Int
  success : Bool
  export_method : Option String := none
  error : Option String := none
  output_files : Option (List String) := none
  deriving DecidableEq, Repr

/-- Wire form consumed by `JobResult.from_dict`: `files` may be omitted
(defaulted to the empty list), the remaining required keys are indexed
directly. -/
structure ResultDict where
  vm_name : String
  output_dir : String
  ovf_path : String
  files : Option (List String) := none
  total_size : Int
  duration : Int
  success : Bool
  export_method : Option String := none
  error : Option String := none
  output_files : Option (List String) := none
  deriving DecidableEq, Repr

def JobResult.from_dict (w : ResultDict) : JobResult :=
  { vm_name := w.vm_name
  , output_dir := w.output_dir
  , ovf_path := w.ovf_path
  , files := w.files.getD []
  , total_size := w.total_size
  , duration := w.duration
  , success := w.success
  , export_method := w.export_method
  , error := w.error
  , output_files := w.output_files }

/-- `Job` dataclass from `models.py`; timestamps kept textual. -/
structure Job where
  definition : JobDefinition
  status : JobStatus
  updated_at : String
  progress : Option JobProgress := none
  result : Option JobResult := none
  error : Option String := none
  started_at : Option String := none
  completed_at : Option String := none
  deriving DecidableEq, Repr

/-- Wire form of a full job payload as consumed by `Job.from_dict`. -/
structure JobWire where
  definition : JobDict
  status : String
  updated_at : String
  progress : Option JobProgress := none
  result : Option ResultDict := none
  error : Option String := none
  started_at : Option String := none
  completed_at : Option String := none
  deriving DecidableEq, Repr

/-- `datetime.fromisoformat(s.replace("Z", "+00:00"))`, with the datetime
kept in textual form. -/
def pyFromIso (s : String) : String := s.replace "Z" "+00:00"

/-- Definition-handling part of `Job.from_dict` (`models.py` lines 193-208):
optional keys are read with `.get` (absent stays `None`), `format` defaults
to `"ovf"`, `export_method` to `""`, and the enum coercions raise
`ValueError` on values outside the enumerations.  Fields not read there
(`vcenter`, `method`, `options`, `created_at`) stay at their dataclass
defaults. -/
def Job.definitionFromDict (w : JobDict) : Except PyErr JobDefinition := do
  let format ← ExportFormat.fromValue (w.format.getD "ovf")
  let export_method ← ExportMethod.fromValue (w.export_method.getD "")
  .ok { vm_path := w.vm_path
      , name := w.name
      , id := w.id
      , output_path := w.output_path
      , output_dir := w.output_dir
      , vcenter_url := w.vcenter_url
      , username := w.username
      , datacenter := w.datacenter
      , format := format
      , export_method := export_method
      , compress := w.compress
      , thin := w.thin
      , insecure := w.insecure }

/-- `Job.from_dict` (`models.py` lines 191-227): builds the definition
first (so its enum errors surface first), then progress and result, then
coerces the status string. -/
def Job.from_dict (w : JobWire) : Except PyErr Job := do
  let definition ← Job.definitionFromDict w.definition
  let progress := w.progress.map JobProgress.from_dict
  let result := w.result.map JobResult.from_dict
  let status ← JobStatus.fromValue w.status
  .ok { definition := definition
      , status := status
      , updated_at := pyFromIso w.updated_at
      , progress := progress
      , result := result
      , error := w.error
      , started_at := w.started_at.map pyFromIso
      , completed_at := w.completed_at.map pyFromIso }

/-- Body of the server response to `POST /jobs/cancel`. -/
structure CancelResponse where
  cancelled : List String
  failed : List String
  errors : List (String × String)
  deriving DecidableEq, Repr

/-- `HyperSDK.cancel_job` (`client.py` lines 289-307), applied to the
decoded cancel response: `True` when the id is listed under `cancelled`,
`APIError` (with the per-id reason) when listed under `failed`, `False`
otherwise. -/
def cancel_job (job_id : String) (resp : CancelResponse) : Except PyErr Bool :=
  if job_id ∈ resp.cancelled then .ok true
  else if job_id ∈ resp.failed then
    .error (.apiError
      ("Failed to cancel job: " ++ ((resp.errors.lookup job_id).getD "Unknown error"))
      none none)
  else .ok false

/-- Parsed JSON object of an error body, modelled as a flat string map
(the only access the client performs is `error_data.get("error", ...)`). -/
def ErrBody := List (String × String)
deriving instance DecidableEq, Repr for ErrBody

/-- Stand-in for `response.text` of a JSON body (the exact raw text is a
transport detail; only its use as a fallback error message matters). -/
def renderBody (b : ErrBody) : String :=
  String.intercalate ", " (b.map (fun p => p.1 ++ "=" ++ p.2))

/-- Error message selection in `_request`: start from `response.text`,
replace it with the payload entry under `"error"` when JSON decodes
(`client.py` lines 120-125); an empty body has empty text and no payload. -/
def errMsg : Option ErrBody → String
  | none => ""
  | some b => (b.lookup "error").getD (renderBody b)

/-- Outcome of the underlying `requests` call: either a transport-level
failure (connection refused, timeout — `requests.RequestException`) or an
HTTP response with a status code and an optional JSON body (`none` for an
empty `response.text`). -/
inductive HttpOutcome where
  | transportFail (msg : String)
  | response (status_code : Nat) (body : Option ErrBody)
  deriving DecidableEq, Repr

/-- `response.ok` from `requests`: false exactly for 400-599. -/
def respOk (s : Nat) : Bool := !(400 ≤ s && s < 600)

/-- Error classification of `HyperSDK._request` (`client.py` lines 72-137):
404 raises `JobNotFoundError`, 401 raises `AuthenticationError`, any other
non-ok status raises `APIError` carrying the status code and the body, and
a transport failure raises `APIError` wrapping the failure text. -/
def requestClassify (path : String) : HttpOutcome → Except PyErr (Option ErrBody)
  | .transportFail msg => .error (.apiError ("Request failed: " ++ msg) none none)
  | .response status_code body =>
    if status_code = 404 then
      .error (.jobNotFoundError ("Resource not found: " ++ path))
    else if status_code = 401 then
      .error (.authenticationError "Authentication failed")
    else if respOk status_code = false then
      .error (.apiError ("API error: " ++ errMsg body) (some status_code) body)
    else .ok body

/-- Python `int()` on a rational: truncation toward zero. -/
def pyInt (q : Rat) : Int := if 0 ≤ q then ⌊q⌋ else ⌈q⌉

/-- Payload construction of `HyperSDK.submit_carbon_aware_job`
(`client.py` lines 1089-1097): take `job_def.to_dict()`, install an empty
metadata map when the key is absent (it always is — `to_dict` never emits
one), then add the four carbon annotations; the delay is
`int(max_delay_hours * 3600 * 1_000_000_000)` nanoseconds. -/
def carbonPayload (job_def : JobDefinition) (carbon_zone : String)
    (max_intensity : Rat) (max_delay_hours : Rat) : JobDict :=
  let job_dict := job_def.to_dict
  let md := job_dict.metadata.getD []
  { job_dict with metadata := some (md ++
      [ ("carbon_aware", .boolV true)
      , ("carbon_zone", .strV carbon_zone)
      , ("carbon_max_intensity", .numV max_intensity)
      , ("carbon_max_delay", .intV (pyInt (max_delay_hours * 3600 * 1000000000))) ]) }

/-- Metadata lookup inside a job payload dict. -/
def JobDict.metaLookup (jd : JobDict) (k : String) : Option MetaVal :=
  (jd.metadata.getD []).lookup k

/-- State view of `submit_carbon_aware_job`: the function reads `job_def`
only through `to_dict()` and never assigns to it, so the post-call value of
the `job_def` argument is the unchanged input, alongside the wire payload
it submits. -/
def submitCarbonAwareState (job_def : JobDefinition) (carbon_zone : String)
    (max_intensity : Rat) (max_delay_hours : Rat) : JobDefinition × JobDict :=
  (job_def, carbonPayload job_def carbon_zone max_intensity max_delay_hours)

/-- Modelled from the spec: the savings computation behind
`estimate_carbon_savings` runs in the remote daemon, whose code is not under
`src/` (the client at `client.py` lines 1026-1060 only relays
`POST /carbon/estimate`).  Per spec section 4.5:
savings_percent = (current_emissions - best_emissions) / current_emissions
times 100, with the result defined as 0 when current_emissions is zero. -/
def estimateSavingsPercent (current_emissions best_emissions : Rat) : Rat :=
  if current_emissions = 0 then 0
  else (current_emissions - best_emissions) / current_emissions * 100

/-- Terminal-status test used by the single-job monitor
(`monitor_jobs.py` line 48: status in completed/failed/cancelled). -/
def JobStatus.isTerminal : JobStatus → Bool
  | .completed => true
  | .failed => true
  | .cancelled => true
  | _ => false

/-- One scripted outcome of a `get_job` poll: the decoded job, or an
exception raised by the call (the `except Exception` arm; the separate
`KeyboardInterrupt` arm is not part of the claims). -/
inductive PollOutcome where
  | ok (job : Job)
  | exn (msg : String)
  deriving DecidableEq, Repr

inductive MonitorOutcome where
  | finished (final : Job)
  | errorExit (code : Nat)
  | outOfScript
  deriving DecidableEq, Repr

/-- Observable trace of a single-job monitoring session: how many status
lines were printed, how many `get_job` polls were issued, and how the loop
ended. -/
structure MonitorRun where
  statusLines : Nat
  polls : Nat
  outcome : MonitorOutcome
  deriving DecidableEq, Repr

/-- `monitor_job` from `monitor_jobs.py` lines 22-60, run against a finite
script of poll outcomes.  Every successful poll prints one status line
(there is no suppression of unchanged status/progress); a terminal status
breaks the loop; a poll exception prints the error and returns exit code 1,
consuming no further script entries. -/
def monitorJob : List PollOutcome → MonitorRun
  | [] => ⟨0, 0, .outOfScript⟩
  | .exn _ :: _ => ⟨0, 1, .errorExit 1⟩
  | .ok j :: rest =>
    if j.status.isTerminal then ⟨1, 1, .finished j⟩
    else
      let r := monitorJob rest
      ⟨r.statusLines + 1, r.polls + 1, r.outcome⟩

/-- One scripted poll of the incremental-backup monitor, which handles the
job payload as a raw dict: a status string and progress percent, or an
exception from the poll. -/
inductive IncPoll where
  | ok (status : String) (percent : Rat)
  | exn (msg : String)
  deriving DecidableEq, Repr

inductive IncOutcome where
  | exitCode (code : Nat)
  | outOfScript
  deriving DecidableEq, Repr

structure IncRun where
  polls : Nat
  outcome : IncOutcome
  deriving DecidableEq, Repr

/-- Monitoring loop of `incremental_backup.py` lines 88-138:
`completed` returns 0, `failed` returns 1, any other status (and notably a
poll exception, whose handler only prints) falls through to the sleep and
polls again. -/
def incMonitor : List IncPoll → IncRun
  | [] => ⟨0, .outOfScript⟩
  | .exn _ :: rest =>
    let r := incMonitor rest
    ⟨r.polls + 1, r.outcome⟩
  | .ok s _ :: rest =>
    if s = "completed" then ⟨1, .exitCode 0⟩
    else if s = "failed" then ⟨1, .exitCode 1⟩
    else
      let r := incMonitor rest
      ⟨r.polls + 1, r.outcome⟩

/-- Python slice `l[a:b]` on a list of month entries. -/
def pySlice (l : List Rat) (a b : Nat) : List Rat := (l.drop a).take (b - a)

/-- Quarterly sums from `cloud_cost_comparison.py` lines 109-114: the
`total_cost` values of `monthly_breakdown[0:3]`, `[3:6]`, `[6:9]`, `[9:12]`
are summed per quarter; there is no length validation. -/
def quarterlySums (monthly : List Rat) : List Rat :=
  [ (pySlice monthly 0 3).sum
  , (pySlice monthly 3 6).sum
  , (pySlice monthly 6 9).sum
  , (pySlice monthly 9 12).sum ]

/-- Helper: a job value as decoded from a poll, with the given status and
optional progress percent. -/
def mkJob (s : JobStatus) (p : Option Rat) : Job :=
  { definition := { vm_path := "/dc/vm/demo" }
  , status := s
  , updated_at := "2026-01-01T00:00:00+00:00"
  , progress := p.map (fun q => { phase := "export", percent_complete := q }) }

/-- Truncation of a rational that is already an integer is its numerator. -/
theorem pyInt_eq_num_of_den_eq_one (q : Rat) (h : q.den = 1) : pyInt q = q.num := by
  have hq : ((q.num : Rat)) = q := (Rat.den_eq_one_iff q).mp h
  unfold pyInt
  split_ifs
  · conv_lhs => rw [← hq]
    exact Int.floor_intCast _
  · conv_lhs => rw [← hq]
    exact Int.ceil_intCast _

/-- C1 counterexample: for a cancel response that lists the job id under
"failed" (server reason: job already completed), `cancel_job` raises
`APIError` with that reason — it does not return `False`. -/
theorem C1_counterexample :
    cancel_job "job-1" ⟨[], ["job-1"], [("job-1", "job already completed")]⟩
      = .error (.apiError "Failed to cancel job: job already completed" none none)
    ∧ cancel_job "job-1" ⟨[], ["job-1"], [("job-1", "job already completed")]⟩
      ≠ .ok false := by
  refine ⟨rfl, ?_⟩
  intro h
  rw [show cancel_job "job-1" ⟨[], ["job-1"], [("job-1", "job already completed")]⟩
      = .error (.apiError "Failed to cancel job: job already completed" none none) from rfl] at h
  exact Except.noConfusion h

/-- C1 (amended): `cancel_job` returns `True` when the id is listed under
"cancelled", raises `APIError` carrying the per-id reason when the id is
listed under "failed", and returns `False` only when the id appears in
neither list; transport/HTTP-level failures raise separately in
`_request`. -/
theorem C1_cancel_job_classification (job_id : String) (resp : CancelResponse) :
    (job_id ∈ resp.cancelled → cancel_job job_id resp = .ok true)
    ∧ (job_id ∉ resp.cancelled → job_id ∈ resp.failed →
        cancel_job job_id resp = .error (.apiError
          ("Failed to cancel job: " ++ ((resp.errors.lookup job_id).getD "Unknown error"))
          none none))
    ∧ (job_id ∉ resp.cancelled → job_id ∉ resp.failed →
        cancel_job job_id resp = .ok false) := by
  constructor
  · intro h1
    simp [cancel_job, h1]
  constructor
  · intro h1 h2
    simp [cancel_job, h1, h2]
  · intro h1 h2
    simp [cancel_job, h1, h2]

/-- C1 witness: a job id in neither list yields `False` without raising. -/
theorem C1_witness :
    cancel_job "job-2" ⟨[], ["job-1"], [("job-1", "job already completed")]⟩ = .ok false :=
  (C1_cancel_job_classification "job-2"
      ⟨[], ["job-1"], [("job-1", "job already completed")]⟩).2.2 (by decide) (by decide)

/-- C2: `submit_carbon_aware_job` annotates the payload metadata with
`carbon_aware = true`, the zone, the intensity threshold, and
`carbon_max_delay` equal to the integer
`max_delay_hours * 3600 * 10^9` (hours expressed in nanoseconds),
whenever that product is an integer (Python `int()` would truncate a
non-integral product). -/
theorem C2_carbon_delay_encoding (job_def : JobDefinition) (carbon_zone : String)
    (max_intensity max_delay_hours : Rat)
    (h : (max_delay_hours * 3600 * 1000000000).den = 1) :
    (carbonPayload job_def carbon_zone max_intensity max_delay_hours).metaLookup
        "carbon_max_delay"
      = some (.intV ((max_delay_hours * 3600 * 1000000000).num))
    ∧ (carbonPayload job_def carbon_zone max_intensity max_delay_hours).metaLookup
        "carbon_aware" = some (.boolV true)
    ∧ (carbonPayload job_def carbon_zone max_intensity max_delay_hours).metaLookup
        "carbon_zone" = some (.strV carbon_zone)
    ∧ (carbonPayload job_def carbon_zone max_intensity max_delay_hours).metaLookup
        "carbon_max_intensity" = some (.numV max_intensity) := by
  refine ⟨?_, rfl, rfl, rfl⟩
  have hred : (carbonPayload job_def carbon_zone max_intensity max_delay_hours).metaLookup
      "carbon_max_delay"
      = some (.intV (pyInt (max_delay_hours * 3600 * 1000000000))) := rfl
  rw [hred, pyInt_eq_num_of_den_eq_one _ h]

/-- C2 witness: `max_delay_hours = 4` encodes exactly 14400000000000
nanoseconds. -/
theorem C2_witness :
    ((4 : Rat) * 3600 * 1000000000).den = 1
    ∧ (carbonPayload { vm_path := "/dc/vm/x" } "US-CAL-CISO" 200 4).metaLookup
        "carbon_max_delay" = some (.intV 14400000000000) := by
  have e : ((4 : Rat) * 3600 * 1000000000) = ((14400000000000 : Int) : Rat) := by norm_num
  have hden : ((4 : Rat) * 3600 * 1000000000).den = 1 := by
    rw [e, Rat.den_intCast]
  have hnum : ((4 : Rat) * 3600 * 1000000000).num = 14400000000000 := by
    rw [e, Rat.num_intCast]
  have h := (C2_carbon_delay_encoding { vm_path := "/dc/vm/x" } "US-CAL-CISO" 200 4 hden).1
  rw [hnum] at h
  exact ⟨hden, h⟩

/-- C6 counterexample: a 6-entry monthly breakdown is silently tolerated —
the quarterly computation returns `[3, 6, 0, 0]` (the out-of-range slices
are just short or empty) instead of raising a `ValidationError`. -/
theorem C6_counterexample : quarterlySums [1, 1, 1, 2, 2, 2] = [3, 6, 0, 0] := by
  norm_num [quarterlySums, pySlice]

/-- C6 (amended): the quarterly sums partition the monthly breakdown into
the fixed contiguous index groups 0-2, 3-5, 6-8, 9-11 and sum per group
(so totals 1,1,1,2,2,2,3,3,3,4,4,4 yield 3,6,9,12), but a breakdown
shorter than 12 entries is silently tolerated — the slices come up short
or empty and no `ValidationError` is raised. -/
theorem C6_quarterly_partition :
    (∀ m0 m1 m2 m3 m4 m5 m6 m7 m8 m9 m10 m11 : Rat,
      quarterlySums [m0, m1, m2, m3, m4, m5, m6, m7, m8, m9, m10, m11]
        = [m0 + m1 + m2, m3 + m4 + m5, m6 + m7 + m8, m9 + m10 + m11])
    ∧ quarterlySums [1, 1, 1, 2, 2, 2, 3, 3, 3, 4, 4, 4] = [3, 6, 9, 12]
    ∧ (∀ a b c d e f : Rat, quarterlySums [a, b, c, d, e, f] = [a + b + c, d + e + f, 0, 0]) := by
  refine ⟨?_, ?_, ?_⟩
  · intro m0 m1 m2 m3 m4 m5 m6 m7 m8 m9 m10 m11
    simp [quarterlySums, pySlice, add_assoc]
  · norm_num [quarterlySums, pySlice]
  · intro a b c d e f
    simp [quarterlySums, pySlice, add_assoc]

/-- C9: the savings estimate returns 0 percent when current emissions are
zero, and the exact relative reduction otherwise (spec-modelled: the
computation runs in the daemon, which is not under `src/`). -/
theorem C9_savings_zero_guard (current_emissions best_emissions : Rat) :
    (current_emissions = 0 → estimateSavingsPercent current_emissions best_emissions = 0)
    ∧ (current_emissions ≠ 0 → estimateSavingsPercent current_emissions best_emissions
        = (current_emissions - best_emissions) / current_emissions * 100) := by
  constructor
  · intro h
    simp [estimateSavingsPercent, h]
  · intro h
    simp [estimateSavingsPercent, h]

/-- C9 witness: zero current emissions yield 0 percent; 250 → 100 yields
60 percent. -/
theorem C9_witness :
    estimateSavingsPercent 0 5 = 0 ∧ estimateSavingsPercent 250 100 = 60 := by
  constructor
  · exact (C9_savings_zero_guard 0 5).1 rfl
  · rw [(C9_savings_zero_guard 250 100).2 (by norm_num)]
    norm_num

/-- Script for C3: a single failed poll while the remote job is still
running, after which the job would have been seen running and then
completed. -/
def c3Script : List PollOutcome :=
  [ .exn "connection refused"
  , .ok (mkJob .running (some 50))
  , .ok (mkJob .completed none) ]

/-- C3 counterexample: the single-job monitor of `monitor_jobs.py` ends the
session with exit code 1 on the first poll error — only one poll is issued
and the remaining script (job still running, then completed) is never
reached, so a single failed poll does terminate monitoring there. -/
theorem C3_counterexample :
    monitorJob c3Script = ⟨0, 1, .errorExit 1⟩
    ∧ (monitorJob c3Script).polls < c3Script.length := by
  exact ⟨rfl, by decide⟩

/-- C3 (amended): only the incremental-backup monitor treats per-poll
errors as transient — it reports and keeps polling, its session outcome
being that of the remaining script; the single-job monitor of
`monitor_jobs.py` instead reports the error and returns exit code 1,
ending the session on a single failed poll. -/
theorem C3_poll_error_transience :
    (∀ (msg : String) (rest : List IncPoll),
      incMonitor (.exn msg :: rest)
        = ⟨(incMonitor rest).polls + 1, (incMonitor rest).outcome⟩)
    ∧ (∀ (msg : String) (rest : List PollOutcome),
      monitorJob (.exn msg :: rest) = ⟨0, 1, .errorExit 1⟩) :=
  ⟨fun _ _ => rfl, fun _ _ => rfl⟩

/-- Scripted poll sequence of C5: pending, running 10 percent, running 10
percent, running 55 percent, completed. -/
def c5Script : List PollOutcome :=
  [ .ok (mkJob .pending none)
  , .ok (mkJob .running (some 10))
  , .ok (mkJob .running (some 10))
  , .ok (mkJob .running (some 55))
  , .ok (mkJob .completed none) ]

/-- C5 counterexample: on the scripted sequence the monitor prints a status
line on every poll — 5 observable events, not 3 — because `monitor_job`
has no suppression of unchanged status/progress; it does terminate after
the completed response with exactly 5 polls. -/
theorem C5_counterexample :
    monitorJob c5Script = ⟨5, 5, .finished (mkJob .completed none)⟩
    ∧ (monitorJob c5Script).statusLines ≠ 3 := by
  exact ⟨rfl, by decide⟩

/-- C5 (amended): the single-job monitor prints one status line per poll
with no redundancy suppression: on any script of non-terminal polls
followed by a terminal one, it emits exactly one event per response and
stops at the terminal response with no further polls issued. -/
theorem C5_monitor_prints_every_poll (pre : List Job) (j : Job)
    (hpre : ∀ x ∈ pre, x.status.isTerminal = false)
    (hj : j.status.isTerminal = true) :
    monitorJob (pre.map .ok ++ [.ok j])
      = ⟨pre.length + 1, pre.length + 1, .finished j⟩ := by
  induction pre with
  | nil => simp [monitorJob, hj]
  | cons x xs ih =>
    have hx : x.status.isTerminal = false := hpre x (List.mem_cons_self _ _)
    have hxs : ∀ y ∈ xs, y.status.isTerminal = false :=
      fun y hy => hpre y (List.mem_cons_of_mem _ hy)
    simp [monitorJob, hx, ih hxs]

/-- C5 witness: the amended count on the specified script — 5 events,
5 polls, finished on the completed response. -/
theorem C5_witness :
    monitorJob c5Script = ⟨5, 5, .finished (mkJob .completed none)⟩ :=
  C5_monitor_prints_every_poll
    [ mkJob .pending none, mkJob .running (some 10), mkJob .running (some 10)
    , mkJob .running (some 55) ]
    (mkJob .completed none) (by decide) (by decide)

/-- An unrecognized format string makes the enum coercion raise
`ValueError` naming the value. -/
theorem formatFromValue_invalid (f : String) (h : f ∉ ExportFormat.validValues) :
    ExportFormat.fromValue f = .error (.valueError (f ++ " is not a valid ExportFormat")) := by
  simp only [ExportFormat.validValues, List.mem_cons, List.not_mem_nil, or_false,
    not_or] at h
  simp [ExportFormat.fromValue, h.1, h.2.1, h.2.2.1, h.2.2.2.1, h.2.2.2.2]

/-- An unrecognized status string makes the enum coercion raise
`ValueError` naming the value. -/
theorem statusFromValue_invalid (s : String) (h : s ∉ JobStatus.validValues) :
    JobStatus.fromValue s = .error (.valueError (s ++ " is not a valid JobStatus")) := by
  simp only [JobStatus.validValues, List.mem_cons, List.not_mem_nil, or_false,
    not_or] at h
  simp [JobStatus.fromValue, h.1, h.2.1, h.2.2.1, h.2.2.2.1, h.2.2.2.2]

/-- Wire payload for C4 with a status value outside the enumeration. -/
def c4BadStatusWire : JobWire :=
  { definition := JobDefinition.to_dict { vm_path := "/dc/vm/x" }
  , status := "exploded"
  , updated_at := "2026-01-01T00:00:00Z" }

/-- C4 counterexample: decoding a payload whose status is "exploded" fails
with the builtin `ValueError` produced by the Python enum constructor —
an error that is not a `HyperSDKError` at all (the SDK defines no
`DecodingError` class), though it does name the offending value and never
coerces to a default. -/
theorem C4_counterexample :
    Job.from_dict c4BadStatusWire
      = .error (.valueError "exploded is not a valid JobStatus")
    ∧ PyErr.isHyperSDKError (.valueError "exploded is not a valid JobStatus") = false :=
  ⟨rfl, rfl⟩

/-- C4 (amended): a wire payload whose format or status value lies outside
the fixed enumerations fails to decode — it is never silently coerced to a
default — but the failure is the Python enum constructor's `ValueError`
naming the offending value and enum name, not a `DecodingError`: no such
class exists in the SDK and the raised error is no `HyperSDKError`. -/
theorem C4_invalid_enum_rejected :
    (∀ (w : JobWire) (f : String), w.definition.format = some f →
      f ∉ ExportFormat.validValues →
      Job.from_dict w = .error (.valueError (f ++ " is not a valid ExportFormat")))
    ∧ (∀ (w : JobWire) (d : JobDefinition),
      Job.definitionFromDict w.definition = .ok d →
      w.status ∉ JobStatus.validValues →
      Job.from_dict w = .error (.valueError (w.status ++ " is not a valid JobStatus")))
    ∧ (∀ msg : String, PyErr.isHyperSDKError (.valueError msg) = false) := by
  refine ⟨?_, ?_, fun _ => rfl⟩
  · intro w f hf hval
    have h1 : ExportFormat.fromValue f
        = .error (.valueError (f ++ " is not a valid ExportFormat")) :=
      formatFromValue_invalid f hval
    simp [Job.from_dict, Job.definitionFromDict, hf, h1, Bind.bind, Except.bind]
  · intro w d hd hval
    have h2 : JobStatus.fromValue w.status
        = .error (.valueError (w.status ++ " is not a valid JobStatus")) :=
      statusFromValue_invalid w.status hval
    simp [Job.from_dict, hd, h2, Bind.bind, Except.bind]

/-- C4 witness: a payload with format value "img" is rejected with the
`ValueError` naming that value. -/
theorem C4_witness :
    Job.from_dict
      { definition := { vm_path := "/dc/vm/x", format := some "img" }
      , status := "pending"
      , updated_at := "2026-01-01T00:00:00Z" }
      = .error (.valueError "img is not a valid ExportFormat") :=
  C4_invalid_enum_rejected.1
    { definition := { vm_path := "/dc/vm/x", format := some "img" }
    , status := "pending"
    , updated_at := "2026-01-01T00:00:00Z" }
    "img" rfl (by decide)

/-- C7: error classification of `_request` — 404 raises `JobNotFoundError`,
401 raises `AuthenticationError`, any other non-success status raises
`APIError` carrying the status code and the structured payload when
present, and a transport-level failure raises `APIError` wrapping the
failure (never one of the other two kinds). -/
theorem C7_request_error_classification :
    (∀ (path : String) (body : Option ErrBody),
      requestClassify path (.response 404 body)
        = .error (.jobNotFoundError ("Resource not found: " ++ path)))
    ∧ (∀ (path : String) (body : Option ErrBody),
      requestClassify path (.response 401 body)
        = .error (.authenticationError "Authentication failed"))
    ∧ (∀ (path : String) (s : Nat) (body : Option ErrBody),
      s ≠ 404 → s ≠ 401 → 400 ≤ s → s < 600 →
      requestClassify path (.response s body)
        = .error (.apiError ("API error: " ++ errMsg body) (some s) body))
    ∧ (∀ (path msg : String),
      requestClassify path (.transportFail msg)
        = .error (.apiError ("Request failed: " ++ msg) none none))
    ∧ (∀ (path msg m : String),
      requestClassify path (.transportFail msg) ≠ .error (.jobNotFoundError m)
      ∧ requestClassify path (.transportFail msg) ≠ .error (.authenticationError m)) := by
  refine ⟨fun _ _ => rfl, fun _ _ => rfl, ?_, fun _ _ => rfl, ?_⟩
  · intro path s body h404 h401 hlo hhi
    have hok : respOk s = false := by simp [respOk, hlo, hhi]
    simp [requestClassify, h404, h401, hok]
  · intro path msg m
    constructor <;> simp [requestClassify]

/-- C7 witness: a 500 response with an empty body raises `APIError`
carrying status code 500 and no payload. -/
theorem C7_witness :
    requestClassify "/jobs/x" (.response 500 none)
      = .error (.apiError ("API error: " ++ errMsg none) (some 500) none) :=
  C7_request_error_classification.2.2.1 "/jobs/x" 500 none
    (by decide) (by decide) (by decide) (by decide)

/-- C8: encoding a JobDefinition holding only the required VM path and then
decoding the payload through the definition handling of `Job.from_dict`
reproduces the definition exactly (so it agrees on the required field and
fabricates no optional field), and every optional key of the encoded
payload is omitted. -/
theorem C8_minimal_roundtrip (vm : String) :
    Job.definitionFromDict (JobDefinition.to_dict { vm_path := vm })
      = .ok { vm_path := vm }
    ∧ (JobDefinition.to_dict { vm_path := vm }).name = none
    ∧ (JobDefinition.to_dict { vm_path := vm }).id = none
    ∧ (JobDefinition.to_dict { vm_path := vm }).output_path = none
    ∧ (JobDefinition.to_dict { vm_path := vm }).output_dir = none
    ∧ (JobDefinition.to_dict { vm_path := vm }).vcenter_url = none
    ∧ (JobDefinition.to_dict { vm_path := vm }).vcenter = none
    ∧ (JobDefinition.to_dict { vm_path := vm }).username = none
    ∧ (JobDefinition.to_dict { vm_path := vm }).datacenter = none
    ∧ (JobDefinition.to_dict { vm_path := vm }).export_method = none
    ∧ (JobDefinition.to_dict { vm_path := vm }).method = none
    ∧ (JobDefinition.to_dict { vm_path := vm }).options = none
    ∧ (JobDefinition.to_dict { vm_path := vm }).created_at = none
    ∧ (JobDefinition.to_dict { vm_path := vm }).metadata = none :=
  ⟨rfl, rfl, rfl, rfl, rfl, rfl, rfl, rfl, rfl, rfl, rfl, rfl, rfl, rfl⟩

/-- C10: `submit_carbon_aware_job` leaves the JobDefinition argument
unchanged — the carbon annotations live only in the metadata entry of the
fresh payload dict built from `to_dict()`, whose own encoding carries no
metadata key at all (the dataclass has no metadata attribute), and the
payload agrees with `to_dict()` on everything but that entry. -/
theorem C10_no_mutation (job_def : JobDefinition) (carbon_zone : String)
    (max_intensity max_delay_hours : Rat) :
    (submitCarbonAwareState job_def carbon_zone max_intensity max_delay_hours).1 = job_def
    ∧ (JobDefinition.to_dict job_def).metadata = none
    ∧ { carbonPayload job_def carbon_zone max_intensity max_delay_hours with
          metadata := none } = JobDefinition.to_dict job_def :=
  ⟨rfl, rfl, rfl⟩
